import Mathlib

/-!
# Verification of the Boston-housing SageMaker notebooks

This file is a shallow embedding of the two notebooks of the repository:

* `Boston Housing - XGBoost (Deploy) - High Level.ipynb` ("the deploy
  notebook"), and
* the hyperparameter-tuning notebook (`Boston Housing - XGBoost
  (Hyperparameter Tuning) - High Level.ipynb`).

Both notebooks are straight-line scripts: an ordered sequence of cells with a
single `if not os.path.exists(data_dir)` branch.  We embed them at three
levels:

1. a *trace* model: each cell's observable action becomes a `Step`, and each
   notebook becomes the list of steps it performs, parametrised by the one
   boolean the control flow depends on (whether the data directory already
   exists);
2. a *monadic* model over an abstract client API, used to reason about error
   propagation (the notebooks install no exception handlers);
3. *pure data* models of the local computations: the two `train_test_split`
   calls, the `pd.concat([...]).to_csv(header=False, index=False)` CSV
   writing, and the `decode('utf-8')` / `np.fromstring(..., sep=',')`
   prediction parsing.
-/

/-- Which in-memory dataset a local file write or request body is built from:
the test features `X_test`, the `pd.concat([Y_val, X_val], axis=1)` frame, or
the `pd.concat([Y_train, X_train], axis=1)` frame. -/
inductive Payload where
  | testX
  | valYX
  | trainYX
deriving DecidableEq, Repr

/-- One observable action of a notebook cell.  Constructors follow the source
cells in the two notebooks; string arguments are the literal arguments of the
corresponding Python calls. -/
inductive Step where
  /-- `boston = load_boston()` -/
  | loadDataset
  /-- the two `sklearn.model_selection.train_test_split` calls -/
  | splitData
  /-- `if not os.path.exists(data_dir)` with the observed answer -/
  | checkDataDir (existed : Bool)
  /-- `os.makedirs(data_dir)` (only taken when the directory was missing) -/
  | makeDataDir
  /-- `....to_csv(os.path.join(data_dir, name), header=..., index=...)` -/
  | writeCsv (name : String) (src : Payload) (header index : Bool)
  /-- `session.upload_data(os.path.join(data_dir, name), key_prefix=...)` -/
  | uploadToS3 (name : String)
  /-- `get_image_uri(...)` and the `sagemaker.estimator.Estimator(...)`
  constructor -/
  | buildEstimator
  /-- `xgb.set_hyperparameters(...)` -/
  | setHyperparameters
  /-- `xgb.fit({'train': ..., 'validation': ...})` -/
  | fitEstimator
  /-- the `HyperparameterTuner(...)` constructor (tuning notebook) -/
  | buildTuner
  /-- `xgb_hyperparameter_tuner.fit({'train': ..., 'validation': ...})` -/
  | fitTuner
  /-- `xgb_hyperparameter_tuner.wait()` -/
  | waitTuner
  /-- `xgb_hyperparameter_tuner.best_training_job()` -/
  | getBestTrainingJob
  /-- `sagemaker.estimator.Estimator.attach(...)` -/
  | attachEstimator
  /-- `xgb_attached.transformer(instance_count=1, instance_type=...)` -/
  | buildTransformer
  /-- `xgb_transformer.transform(test_location, content_type=..., split_type=...)` -/
  | transformCall (contentType splitType : String)
  /-- `xgb_transformer.wait()` -/
  | waitTransformer
  /-- `!aws s3 cp --recursive $xgb_transformer.output_path $data_dir` -/
  | copyTransformOutput
  /-- `Y_pred = pd.read_csv(os.path.join(data_dir, name), header=None)` -/
  | readOutputCsv (name : String)
  /-- `xgb_predictor = xgb.deploy(initial_instance_count=1, instance_type=...)` -/
  | deployEndpoint
  /-- `xgb_predictor.predict(X_test.values)` with the configured
  `content_type` and the payload sent -/
  | predictCall (contentType : String) (src : Payload)
  /-- `Y_pred.decode('utf-8')` followed by `np.fromstring(Y_pred, sep=',')` -/
  | parsePredictions
  /-- `plt.scatter(Y_test, Y_pred)` and the axis-label calls -/
  | plotScatter
  /-- `xgb_predictor.delete_endpoint()` -/
  | deleteEndpointCall
  /-- `!rm $data_dir/*` and `!rmdir $data_dir` -/
  | removeDataFiles
deriving DecidableEq, Repr

/-- The trace of a complete run of the deploy notebook, cell by cell.
`dirExists` is the value of `os.path.exists(data_dir)` at the single branch
in the script. -/
def deployRun (dirExists : Bool) : List Step :=
  [Step.loadDataset, Step.splitData, Step.checkDataDir dirExists] ++
  (if dirExists then [] else [Step.makeDataDir]) ++
  [Step.writeCsv "validation.csv" Payload.valYX false false,
   Step.writeCsv "train.csv" Payload.trainYX false false,
   Step.uploadToS3 "validation.csv",
   Step.uploadToS3 "train.csv",
   Step.buildEstimator,
   Step.setHyperparameters,
   Step.fitEstimator,
   Step.deployEndpoint,
   Step.predictCall "text/csv" Payload.testX,
   Step.parsePredictions,
   Step.plotScatter,
   Step.deleteEndpointCall,
   Step.removeDataFiles]

/-- The trace of a complete run of the hyperparameter-tuning notebook, cell
by cell. -/
def tuningRun (dirExists : Bool) : List Step :=
  [Step.loadDataset, Step.splitData, Step.checkDataDir dirExists] ++
  (if dirExists then [] else [Step.makeDataDir]) ++
  [Step.writeCsv "test.csv" Payload.testX false false,
   Step.writeCsv "validation.csv" Payload.valYX false false,
   Step.writeCsv "train.csv" Payload.trainYX false false,
   Step.uploadToS3 "test.csv",
   Step.uploadToS3 "validation.csv",
   Step.uploadToS3 "train.csv",
   Step.buildEstimator,
   Step.setHyperparameters,
   Step.buildTuner,
   Step.fitTuner,
   Step.waitTuner,
   Step.getBestTrainingJob,
   Step.attachEstimator,
   Step.buildTransformer,
   Step.transformCall "text/csv" "Line",
   Step.waitTransformer,
   Step.copyTransformOutput,
   Step.readOutputCsv "test.csv.out",
   Step.plotScatter,
   Step.removeDataFiles]

/-- `isSubseqOf xs ys` decides whether `xs` occurs, in order but not
necessarily contiguously, inside `ys`. -/
def isSubseqOf [DecidableEq α] : List α → List α → Bool
  | [], _ => true
  | _ :: _, [] => false
  | a :: as, b :: bs => if a = b then isSubseqOf as bs else isSubseqOf (a :: as) bs

example : isSubseqOf [1, 3] [1, 2, 3] = true := by decide
example : isSubseqOf [3, 1] [1, 2, 3] = false := by decide

/-- `true` for the steps that submit work to, or invoke, the managed
service's client library: uploads, `fit`, tuner `fit`, `deploy`,
`transform`, `predict`, `delete_endpoint`, job attachment/lookup and the
transform-output download. -/
def isClientCall : Step → Bool
  | Step.uploadToS3 _ => true
  | Step.fitEstimator => true
  | Step.fitTuner => true
  | Step.waitTuner => true
  | Step.getBestTrainingJob => true
  | Step.attachEstimator => true
  | Step.transformCall _ _ => true
  | Step.waitTransformer => true
  | Step.copyTransformOutput => true
  | Step.deployEndpoint => true
  | Step.predictCall _ _ => true
  | Step.deleteEndpointCall => true
  | _ => false

/-- `true` for local glue actions: data loading/splitting, file-system work,
request-object construction, response parsing and plotting.  Together with
`isClientCall` this classifies every step; no step of either notebook runs a
training algorithm, a parameter search or a serving runtime locally. -/
def isLocalGlue : Step → Bool
  | Step.loadDataset => true
  | Step.splitData => true
  | Step.checkDataDir _ => true
  | Step.makeDataDir => true
  | Step.writeCsv _ _ _ _ => true
  | Step.buildEstimator => true
  | Step.setHyperparameters => true
  | Step.buildTuner => true
  | Step.buildTransformer => true
  | Step.readOutputCsv _ => true
  | Step.parsePredictions => true
  | Step.plotScatter => true
  | Step.removeDataFiles => true
  | _ => false

/-- The file, if any, that a step persists locally under the data directory:
the three `to_csv` targets and the downloaded batch-transform output
`test.csv.out`.  Every one of these files is plain CSV: `to_csv` writes CSV
by construction and the transform output is the CSV the notebook reads back
with `pd.read_csv`. -/
def stepPersists : Step → Option String
  | Step.writeCsv name _ _ _ => some name
  | Step.copyTransformOutput => some "test.csv.out"
  | _ => none

/-- All files persisted during a run, in order. -/
def persistedFiles (run : List Step) : List String :=
  run.filterMap stepPersists

/-- All files uploaded to object storage during a run, in order. -/
def uploadedFiles (run : List Step) : List String :=
  run.filterMap fun s =>
    match s with
    | Step.uploadToS3 name => some name
    | _ => none

/-- The coarse phases the specification's glue-code sentence names:
read data, write CSV, call an API, poll for completion, parse a response,
plot, delete resources.  `setup` covers purely local preparation steps the
sentence does not mention (splitting, directory handling, constructing
request objects). -/
inductive Phase where
  | readData
  | writeCsvFile
  | apiCall
  | poll
  | parseResponse
  | plotChart
  | deleteResources
  | setup
deriving DecidableEq, Repr

/-- The position of each phase in the spec's listed order. -/
def phaseRank : Phase → Nat
  | Phase.readData => 0
  | Phase.writeCsvFile => 1
  | Phase.apiCall => 2
  | Phase.poll => 3
  | Phase.parseResponse => 4
  | Phase.plotChart => 5
  | Phase.deleteResources => 6
  | Phase.setup => 7

/-- Classify each step into the spec's phases. -/
def stepPhase : Step → Phase
  | Step.loadDataset => Phase.readData
  | Step.splitData => Phase.setup
  | Step.checkDataDir _ => Phase.setup
  | Step.makeDataDir => Phase.setup
  | Step.writeCsv _ _ _ _ => Phase.writeCsvFile
  | Step.uploadToS3 _ => Phase.apiCall
  | Step.buildEstimator => Phase.setup
  | Step.setHyperparameters => Phase.setup
  | Step.fitEstimator => Phase.apiCall
  | Step.buildTuner => Phase.setup
  | Step.fitTuner => Phase.apiCall
  | Step.waitTuner => Phase.poll
  | Step.getBestTrainingJob => Phase.apiCall
  | Step.attachEstimator => Phase.apiCall
  | Step.buildTransformer => Phase.setup
  | Step.transformCall _ _ => Phase.apiCall
  | Step.waitTransformer => Phase.poll
  | Step.copyTransformOutput => Phase.apiCall
  | Step.readOutputCsv _ => Phase.parseResponse
  | Step.deployEndpoint => Phase.apiCall
  | Step.predictCall _ _ => Phase.apiCall
  | Step.parsePredictions => Phase.parseResponse
  | Step.plotScatter => Phase.plotChart
  | Step.deleteEndpointCall => Phase.deleteResources
  | Step.removeDataFiles => Phase.deleteResources

/-- Whether a list of ranks is nondecreasing. -/
def ranksSorted : List Nat → Bool
  | [] => true
  | [_] => true
  | a :: b :: rest => decide (a ≤ b) && ranksSorted (b :: rest)

/-- The phase ranks of a run, with the unmentioned `setup` steps dropped. -/
def phaseRanks (run : List Step) : List Nat :=
  ((run.map stepPhase).filter fun p => p ≠ Phase.setup).map phaseRank

/-- A run matches the spec's sentence literally when its non-setup steps,
in program order, never move to an earlier phase. -/
def phasesMonotone (run : List Step) : Bool :=
  ranksSorted (phaseRanks run)

example : phasesMonotone (deployRun true) = true := by decide
example : phasesMonotone (tuningRun true) = false := by decide

/-!
## The monadic model

The notebooks call the client library with no `try`/`except`, no retry loop
and no fallback.  We model each call the cells make as an `Except`-valued
field of an abstract `SageMakerApi`, and each notebook as the straight-line
`do`-sequence the cells form.  Results and errors are opaque strings: the
glue code never inspects them, it only threads them through.
-/

/-- The client-library calls the two notebooks make, as abstract
`Except`-valued operations.  A field's `Except.error e` models the client
library raising exception `e` at that call. -/
structure SageMakerApi where
  /-- `load_boston()` (sklearn download) -/
  loadBoston : Except String String
  /-- `session.upload_data(path, key_prefix=prefix)`, keyed by file name -/
  uploadData : String → Except String String
  /-- `xgb.fit({'train': ..., 'validation': ...})` -/
  fitCall : Except String Unit
  /-- `xgb.deploy(initial_instance_count=1, instance_type=...)` -/
  deployCall : Except String String
  /-- `xgb_predictor.predict(X_test.values)` against an endpoint -/
  predictOn : String → Except String String
  /-- `xgb_predictor.delete_endpoint()` -/
  deleteEndpointOn : String → Except String Unit
  /-- `xgb_hyperparameter_tuner.fit(...)` -/
  tunerFit : Except String Unit
  /-- `xgb_hyperparameter_tuner.wait()` -/
  tunerWait : Except String Unit
  /-- `xgb_hyperparameter_tuner.best_training_job()` -/
  bestTrainingJob : Except String String
  /-- `sagemaker.estimator.Estimator.attach(job)` -/
  attachJob : String → Except String String
  /-- `xgb_transformer.transform(loc, content_type='text/csv', split_type='Line')` -/
  transformOn : String → Except String Unit
  /-- `xgb_transformer.wait()` -/
  transformWait : Except String Unit
  /-- `aws s3 cp --recursive $xgb_transformer.output_path $data_dir` -/
  copyOutput : Except String String

/-- The deploy notebook as the straight-line sequence of client calls its
cells perform (local pure steps carry no failure and are omitted): load the
dataset, upload `validation.csv` and `train.csv`, train, deploy, predict on
the endpoint, delete the endpoint, and return the raw prediction string. -/
def runDeployJob (api : SageMakerApi) : Except String String := do
  let _boston ← api.loadBoston
  let _valLoc ← api.uploadData "validation.csv"
  let _trainLoc ← api.uploadData "train.csv"
  let _ ← api.fitCall
  let endpointName ← api.deployCall
  let rawPreds ← api.predictOn endpointName
  let _ ← api.deleteEndpointOn endpointName
  pure rawPreds

/-- The tuning notebook as the straight-line sequence of client calls its
cells perform: load the dataset, upload `test.csv`, `validation.csv` and
`train.csv`, run the tuner, wait, look up and attach the best job, run the
batch transform on the uploaded test data, wait, and download the output. -/
def runTuningJob (api : SageMakerApi) : Except String String := do
  let _boston ← api.loadBoston
  let testLoc ← api.uploadData "test.csv"
  let _valLoc ← api.uploadData "validation.csv"
  let _trainLoc ← api.uploadData "train.csv"
  let _ ← api.tunerFit
  let _ ← api.tunerWait
  let best ← api.bestTrainingJob
  let _attached ← api.attachJob best
  let _ ← api.transformOn testLoc
  let _ ← api.transformWait
  api.copyOutput

/-- Specification-side definition: the error of the *first* failing client
call of the deploy notebook, in program order, if any.  The spec's claim that
errors propagate unchanged and unhandled says the run's outcome is exactly
this. -/
def specFirstErrorDeploy (api : SageMakerApi) : Option String :=
  match api.loadBoston with
  | Except.error e => some e
  | Except.ok _ =>
  match api.uploadData "validation.csv" with
  | Except.error e => some e
  | Except.ok _ =>
  match api.uploadData "train.csv" with
  | Except.error e => some e
  | Except.ok _ =>
  match api.fitCall with
  | Except.error e => some e
  | Except.ok _ =>
  match api.deployCall with
  | Except.error e => some e
  | Except.ok endpointName =>
  match api.predictOn endpointName with
  | Except.error e => some e
  | Except.ok _ =>
  match api.deleteEndpointOn endpointName with
  | Except.error e => some e
  | Except.ok _ => none

/-- Specification-side definition: the error of the first failing client
call of the tuning notebook, in program order, if any. -/
def specFirstErrorTuning (api : SageMakerApi) : Option String :=
  match api.loadBoston with
  | Except.error e => some e
  | Except.ok _ =>
  match api.uploadData "test.csv" with
  | Except.error e => some e
  | Except.ok testLoc =>
  match api.uploadData "validation.csv" with
  | Except.error e => some e
  | Except.ok _ =>
  match api.uploadData "train.csv" with
  | Except.error e => some e
  | Except.ok _ =>
  match api.tunerFit with
  | Except.error e => some e
  | Except.ok _ =>
  match api.tunerWait with
  | Except.error e => some e
  | Except.ok _ =>
  match api.bestTrainingJob with
  | Except.error e => some e
  | Except.ok best =>
  match api.attachJob best with
  | Except.error e => some e
  | Except.ok _ =>
  match api.transformOn testLoc with
  | Except.error e => some e
  | Except.ok _ =>
  match api.transformWait with
  | Except.error e => some e
  | Except.ok _ =>
  match api.copyOutput with
  | Except.error e => some e
  | Except.ok _ => none

/-!
## The data split

Both notebooks run

```
X_train, X_test, Y_train, Y_test = train_test_split(X, Y, test_size=0.33)
X_train, X_val, Y_train, Y_val = train_test_split(X_train, Y_train, test_size=0.33)
```

`train_test_split` shuffles the rows with a fresh permutation, takes the
first `ceil(0.33 * n)` shuffled rows as the test split and the rest as the
train split, applying the *same* permutation to `X` and `Y`.  We model a row
as the pair of its feature vector and its target, so the shared permutation
is a permutation of the paired list, and model the shuffle as an arbitrary
`List.Perm`-related list. -/

/-- `ceil(0.33 * n)` over the integers: the size sklearn gives the held-out
split of an `n`-row input at `test_size=0.33`. -/
def testSplitSize (n : Nat) : Nat := (33 * n + 99) / 100

/-- One `train_test_split(..., test_size=0.33)` call, applied to the
already-shuffled paired rows: the first `ceil(0.33 * n)` rows are the test
split, the remainder the train split.  Returns `(train, test)`. -/
def trainTestSplit (shuffled : List ρ) : List ρ × List ρ :=
  (shuffled.drop (testSplitSize shuffled.length),
   shuffled.take (testSplitSize shuffled.length))

theorem testSplitSize_le (n : Nat) : testSplitSize n ≤ n := by
  unfold testSplitSize
  omega

/-!
## CSV serialization

The notebooks write their staging files with

```
X_test.to_csv(..., header=False, index=False)                      -- tuning only
pd.concat([Y_val, X_val], axis=1).to_csv(..., header=False, index=False)
pd.concat([Y_train, X_train], axis=1).to_csv(..., header=False, index=False)
```

We model a written CSV file as a list of lines, each line a list of cells;
a cell is a data value, a column name (only emitted when `header` is true)
or a row index (only emitted when `index` is true). -/

/-- One CSV cell as `to_csv` can emit it. -/
inductive Cell (α : Type) where
  | value (x : α)
  | colName (s : String)
  | rowIndex (i : Nat)
deriving DecidableEq, Repr

/-- The data lines of a `to_csv` write, starting at row index `i`: one line
per row, each optionally preceded by its index. -/
def csvBody (index : Bool) (i : Nat) : List (List α) → List (List (Cell α))
  | [] => []
  | r :: rest =>
    ((if index then [Cell.rowIndex i] else []) ++ r.map Cell.value) ::
      csvBody index (i + 1) rest

/-- `DataFrame.to_csv(header=..., index=...)` on a frame whose rows are
`rows`: an optional header line of column names, then the data lines. -/
def toCsvLines (header : Option (List String)) (index : Bool)
    (rows : List (List α)) : List (List (Cell α)) :=
  match header with
  | some names => ((if index then [Cell.colName ""] else []) ++
      names.map Cell.colName) :: csvBody index 0 rows
  | none => csvBody index 0 rows

/-- `pd.concat([Y, X], axis=1)` on per-row `(target, features)` pairs: each
row becomes its target followed by its features. -/
def concatYX (rows : List (α × List α)) : List (List α) :=
  rows.map fun r => r.1 :: r.2

/-- The train/validation staging files: `pd.concat([Y, X], axis=1)
.to_csv(..., header=False, index=False)`. -/
def writeLabeledCsv (rows : List (α × List α)) : List (List (Cell α)) :=
  toCsvLines none false (concatYX rows)

/-- The tuning notebook's `test.csv`: `X_test.to_csv(..., header=False,
index=False)` — features only. -/
def writeTestCsv (featureRows : List (List α)) : List (List (Cell α)) :=
  toCsvLines none false featureRows

/-!
## Prediction serialization and parsing

The deploy notebook receives the endpoint's response as a UTF-8
comma-delimited string of decimal numbers and parses it with

```
Y_pred = xgb_predictor.predict(X_test.values).decode('utf-8')
Y_pred = np.fromstring(Y_pred, sep=',')
```

We model the response alphabet as an inductive character type (digits,
decimal point, minus sign, comma), a finite decimal number as an integer
mantissa with a decimal-place count, the endpoint-side serialization as
rendering each number in decimal and joining on commas, and `np.fromstring`
with `sep=','` as splitting on commas and parsing each piece. -/

/-- A character of the endpoint's `text/csv` response. -/
inductive Ch where
  | digit (d : Nat)
  | dot
  | minus
  | comma
deriving DecidableEq, Repr

/-- A finite decimal number: value `mantissa / 10 ^ scale`, written with
exactly `scale` digits after the decimal point (no point when `scale = 0`). -/
structure DecNum where
  mantissa : Int
  scale : Nat
deriving DecidableEq, Repr

/-- Little-endian base-10 digits of `n`, computed with `fuel ≥ n` steps;
`natDigits n n` is total. -/
def natDigits : Nat → Nat → List Nat
  | 0, _ => []
  | _, 0 => []
  | fuel + 1, n + 1 => ((n + 1) % 10) :: natDigits fuel ((n + 1) / 10)

/-- Little-endian digits of `n` padded with zeros to at least `e + 1`
digits, so the rendering has at least one digit before the decimal point. -/
def digitsLE (n e : Nat) : List Nat :=
  let ds := natDigits n n
  ds ++ List.replicate (e + 1 - ds.length) 0

/-- The big-endian digit string of `renderUnsigned`. -/
def bigDigits (n e : Nat) : List Nat := (digitsLE n e).reverse

/-- Render the non-negative decimal `n / 10 ^ e`: the big-endian digits of
`n` with a decimal point inserted `e` places from the right (and no point
when `e = 0`). -/
def renderUnsigned (n e : Nat) : List Ch :=
  ((bigDigits n e).take ((bigDigits n e).length - e)).map Ch.digit ++
    (if e = 0 then []
     else Ch.dot :: ((bigDigits n e).drop ((bigDigits n e).length - e)).map Ch.digit)

/-- Render a finite decimal number, with a leading minus sign when the
mantissa is negative. -/
def renderDec (x : DecNum) : List Ch :=
  if x.mantissa < 0 then Ch.minus :: renderUnsigned x.mantissa.natAbs x.scale
  else renderUnsigned x.mantissa.natAbs x.scale

/-- `','.join`: the endpoint's comma-delimited response body for a list of
predictions. -/
def joinComma : List (List Ch) → List Ch
  | [] => []
  | [p] => p
  | p :: ps => p ++ Ch.comma :: joinComma ps

/-- The serialized response for a prediction vector: each prediction in
decimal, joined on commas. -/
def serializePreds (v : List DecNum) : List Ch :=
  joinComma (v.map renderDec)

/-- Split a response on commas (the `sep=','` tokenization of
`np.fromstring`). -/
def splitOnComma : List Ch → List (List Ch)
  | [] => [[]]
  | Ch.comma :: rest => [] :: splitOnComma rest
  | c :: rest =>
    match splitOnComma rest with
    | [] => [[c]]
    | p :: ps => (c :: p) :: ps

/-- The numeric value of one character, if it is a digit. -/
def chDigit : Ch → Option Nat
  | Ch.digit d => some d
  | _ => none

/-- Parse a maximal digit run: every character must be a digit. -/
def parseDigitsBE : List Ch → Option (List Nat)
  | [] => some []
  | c :: cs => do
    let d ← chDigit c
    let ds ← parseDigitsBE cs
    pure (d :: ds)

/-- The number denoted by big-endian digits. -/
def natOfBE (ds : List Nat) : Nat := Nat.ofDigits 10 ds.reverse

/-- Split a token at its first decimal point (the point stays at the head of
the second component). -/
def splitAtDot : List Ch → List Ch × List Ch
  | [] => ([], [])
  | c :: rest =>
    if c = Ch.dot then ([], c :: rest)
    else
      let p := splitAtDot rest
      (c :: p.1, p.2)

/-- Parse an unsigned decimal token into mantissa and decimal-place count. -/
def parseUnsigned (cs : List Ch) : Option (Nat × Nat) :=
  let p := splitAtDot cs
  match p.2 with
  | [] => (parseDigitsBE p.1).map fun ds => (natOfBE ds, 0)
  | _ :: fracChs => do
    let intDs ← parseDigitsBE p.1
    let fracDs ← parseDigitsBE fracChs
    pure (natOfBE (intDs ++ fracDs), fracChs.length)

/-- Parse one comma-separated token, with an optional leading minus sign. -/
def parseDec (cs : List Ch) : Option DecNum :=
  match cs with
  | Ch.minus :: rest => (parseUnsigned rest).map fun p => ⟨-(p.1 : Int), p.2⟩
  | _ => (parseUnsigned cs).map fun p => ⟨(p.1 : Int), p.2⟩

/-- Parse every token of a token list. -/
def parseAll : List (List Ch) → Option (List DecNum)
  | [] => some []
  | p :: ps => do
    let x ← parseDec p
    let xs ← parseAll ps
    pure (x :: xs)

/-- `np.fromstring(response, sep=',')`: split the decoded response on commas
and parse each token as a number. -/
def parsePreds (cs : List Ch) : Option (List DecNum) :=
  parseAll (splitOnComma cs)

example : parsePreds (serializePreds [⟨-1205, 2⟩, ⟨7, 0⟩, ⟨0, 1⟩]) =
    some [⟨-1205, 2⟩, ⟨7, 0⟩, ⟨0, 1⟩] := by decide

/-!
### Round-trip lemmas for the prediction format
-/

theorem natDigits_spec : ∀ fuel n, n ≤ fuel →
    Nat.ofDigits 10 (natDigits fuel n) = n := by
  intro fuel
  induction fuel with
  | zero =>
    intro n h
    have : n = 0 := by omega
    subst this
    simp [natDigits, Nat.ofDigits_nil]
  | succ f ih =>
    intro n h
    match n with
    | 0 => simp [natDigits, Nat.ofDigits_nil]
    | m + 1 =>
      have hdiv : (m + 1) / 10 ≤ f := by omega
      rw [show natDigits (f + 1) (m + 1) =
        ((m + 1) % 10) :: natDigits f ((m + 1) / 10) from rfl]
      rw [Nat.ofDigits_cons, ih ((m + 1) / 10) hdiv]
      omega

theorem ofDigits_replicate_zero (k : Nat) :
    Nat.ofDigits 10 (List.replicate k 0) = 0 := by
  induction k with
  | zero => simp [Nat.ofDigits_nil]
  | succ n ih => simp [List.replicate, Nat.ofDigits_cons, ih]

theorem ofDigits_digitsLE (n e : Nat) : Nat.ofDigits 10 (digitsLE n e) = n := by
  unfold digitsLE
  rw [Nat.ofDigits_append, ofDigits_replicate_zero, natDigits_spec n n le_rfl]
  ring

theorem digitsLE_length (n e : Nat) : e + 1 ≤ (digitsLE n e).length := by
  unfold digitsLE
  simp only [List.length_append, List.length_replicate]
  omega

theorem splitAtDot_digits_dot (xs : List Nat) (ys : List Ch) :
    splitAtDot (xs.map Ch.digit ++ Ch.dot :: ys) =
      (xs.map Ch.digit, Ch.dot :: ys) := by
  induction xs with
  | nil => simp [splitAtDot]
  | cons a t ih => simp [splitAtDot, ih]

theorem splitAtDot_digits_only (xs : List Nat) :
    splitAtDot (xs.map Ch.digit) = (xs.map Ch.digit, []) := by
  induction xs with
  | nil => simp [splitAtDot]
  | cons a t ih => simp [splitAtDot, ih]

theorem parseDigitsBE_map (xs : List Nat) :
    parseDigitsBE (xs.map Ch.digit) = some xs := by
  induction xs with
  | nil => simp [parseDigitsBE]
  | cons a t ih => simp [parseDigitsBE, chDigit, ih]

theorem bigDigits_length (n e : Nat) : e + 1 ≤ (bigDigits n e).length := by
  unfold bigDigits
  rw [List.length_reverse]
  exact digitsLE_length n e

theorem natOfBE_bigDigits (n e : Nat) : natOfBE (bigDigits n e) = n := by
  unfold natOfBE bigDigits
  rw [List.reverse_reverse]
  exact ofDigits_digitsLE n e

theorem parseUnsigned_render (n e : Nat) :
    parseUnsigned (renderUnsigned n e) = some (n, e) := by
  have hlen : e + 1 ≤ (bigDigits n e).length := bigDigits_length n e
  have hval : natOfBE (bigDigits n e) = n := natOfBE_bigDigits n e
  by_cases he : e = 0
  · subst he
    have hr : renderUnsigned n 0 = (bigDigits n 0).map Ch.digit := by
      unfold renderUnsigned
      simp
    rw [hr]
    unfold parseUnsigned
    rw [splitAtDot_digits_only]
    change Option.map (fun ds => (natOfBE ds, 0))
      (parseDigitsBE ((bigDigits n 0).map Ch.digit)) = some (n, 0)
    rw [parseDigitsBE_map]
    change some (natOfBE (bigDigits n 0), 0) = some (n, 0)
    rw [hval]
  · have hr : renderUnsigned n e =
        ((bigDigits n e).take ((bigDigits n e).length - e)).map Ch.digit ++
          Ch.dot :: ((bigDigits n e).drop ((bigDigits n e).length - e)).map Ch.digit := by
      unfold renderUnsigned
      rw [if_neg he]
    rw [hr]
    unfold parseUnsigned
    rw [splitAtDot_digits_dot]
    change (do
      let intDs ← parseDigitsBE
        (((bigDigits n e).take ((bigDigits n e).length - e)).map Ch.digit)
      let fracDs ← parseDigitsBE
        (((bigDigits n e).drop ((bigDigits n e).length - e)).map Ch.digit)
      pure (natOfBE (intDs ++ fracDs),
        ((((bigDigits n e).drop ((bigDigits n e).length - e)).map Ch.digit)).length))
      = some (n, e)
    rw [parseDigitsBE_map, parseDigitsBE_map]
    change some (natOfBE ((bigDigits n e).take ((bigDigits n e).length - e) ++
        (bigDigits n e).drop ((bigDigits n e).length - e)),
      ((((bigDigits n e).drop ((bigDigits n e).length - e)).map Ch.digit)).length)
      = some (n, e)
    rw [List.take_append_drop, hval, List.length_map, List.length_drop]
    have hsub : (bigDigits n e).length - ((bigDigits n e).length - e) = e := by omega
    rw [hsub]

theorem renderUnsigned_head (n e : Nat) :
    ∃ d rest, renderUnsigned n e = Ch.digit d :: rest := by
  have hlen : e + 1 ≤ (bigDigits n e).length := bigDigits_length n e
  have hip : (bigDigits n e).take ((bigDigits n e).length - e) ≠ [] := by
    intro hnil
    have := congrArg List.length hnil
    simp only [List.length_take, List.length_nil] at this
    omega
  obtain ⟨a, t, hat⟩ := List.exists_cons_of_ne_nil hip
  refine ⟨a, t.map Ch.digit ++
    (if e = 0 then []
     else Ch.dot :: ((bigDigits n e).drop ((bigDigits n e).length - e)).map Ch.digit), ?_⟩
  unfold renderUnsigned
  rw [hat]
  simp

theorem parseDec_render (x : DecNum) : parseDec (renderDec x) = some x := by
  obtain ⟨m, e⟩ := x
  by_cases hm : m < 0
  · have hr : renderDec ⟨m, e⟩ = Ch.minus :: renderUnsigned m.natAbs e := by
      unfold renderDec
      rw [if_pos hm]
    rw [hr]
    rw [show parseDec (Ch.minus :: renderUnsigned m.natAbs e) =
      (parseUnsigned (renderUnsigned m.natAbs e)).map
        (fun p => ⟨-(p.1 : Int), p.2⟩) from rfl]
    rw [parseUnsigned_render]
    change some (⟨-(m.natAbs : Int), e⟩ : DecNum) = some ⟨m, e⟩
    have hcast : -((m.natAbs : Int)) = m := by omega
    rw [hcast]
  · have hr : renderDec ⟨m, e⟩ = renderUnsigned m.natAbs e := by
      unfold renderDec
      rw [if_neg hm]
    obtain ⟨d, rest, hdr⟩ := renderUnsigned_head m.natAbs e
    rw [hr, hdr]
    rw [show parseDec (Ch.digit d :: rest) =
      (parseUnsigned (Ch.digit d :: rest)).map
        (fun p => ⟨(p.1 : Int), p.2⟩) from rfl]
    rw [← hdr, parseUnsigned_render]
    change some (⟨(m.natAbs : Int), e⟩ : DecNum) = some ⟨m, e⟩
    have hcast : ((m.natAbs : Int)) = m := by omega
    rw [hcast]

theorem renderDec_no_comma (x : DecNum) : Ch.comma ∉ renderDec x := by
  have hu : ∀ n e, Ch.comma ∉ renderUnsigned n e := by
    intro n e hmem
    unfold renderUnsigned at hmem
    rw [List.mem_append] at hmem
    rcases hmem with h | h
    · rcases List.mem_map.mp h with ⟨d, _, hd⟩
      exact Ch.noConfusion hd
    · by_cases he : e = 0
      · simp [he] at h
      · rw [if_neg he] at h
        rcases List.mem_cons.mp h with h | h
        · exact Ch.noConfusion h
        · rcases List.mem_map.mp h with ⟨d, _, hd⟩
          exact Ch.noConfusion hd
  unfold renderDec
  by_cases hm : x.mantissa < 0
  · rw [if_pos hm]
    intro hmem
    rcases List.mem_cons.mp hmem with h | h
    · exact Ch.noConfusion h
    · exact hu _ _ h
  · rw [if_neg hm]
    exact hu _ _

theorem splitOnComma_no_comma (p : List Ch) (hp : Ch.comma ∉ p) :
    splitOnComma p = [p] := by
  induction p with
  | nil => simp [splitOnComma]
  | cons c t ih =>
    have hc : c ≠ Ch.comma := fun h => hp (h ▸ List.mem_cons_self c t)
    have ht : Ch.comma ∉ t := fun h => hp (List.mem_cons_of_mem c h)
    cases c with
    | comma => exact absurd rfl hc
    | digit d => simp [splitOnComma, ih ht]
    | dot => simp [splitOnComma, ih ht]
    | minus => simp [splitOnComma, ih ht]

theorem splitOnComma_append (p rest : List Ch) (hp : Ch.comma ∉ p) :
    splitOnComma (p ++ Ch.comma :: rest) = p :: splitOnComma rest := by
  induction p with
  | nil => simp [splitOnComma]
  | cons c t ih =>
    have hc : c ≠ Ch.comma := fun h => hp (h ▸ List.mem_cons_self c t)
    have ht : Ch.comma ∉ t := fun h => hp (List.mem_cons_of_mem c h)
    cases c with
    | comma => exact absurd rfl hc
    | digit d => simp [splitOnComma, ih ht]
    | dot => simp [splitOnComma, ih ht]
    | minus => simp [splitOnComma, ih ht]

theorem splitOnComma_joinComma (ps : List (List Ch)) (hne : ps ≠ [])
    (hfree : ∀ p ∈ ps, Ch.comma ∉ p) :
    splitOnComma (joinComma ps) = ps := by
  induction ps with
  | nil => exact absurd rfl hne
  | cons p t ih =>
    match t with
    | [] =>
      rw [show joinComma [p] = p from rfl]
      exact splitOnComma_no_comma p (hfree p (List.mem_cons_self _ _))
    | q :: t2 =>
      rw [show joinComma (p :: q :: t2) = p ++ Ch.comma :: joinComma (q :: t2) from rfl]
      rw [splitOnComma_append _ _ (hfree p (List.mem_cons_self _ _))]
      rw [ih (List.cons_ne_nil _ _) fun r hr => hfree r (List.mem_cons_of_mem p hr)]

theorem parseAll_render (v : List DecNum) :
    parseAll (v.map renderDec) = some v := by
  induction v with
  | nil => simp [parseAll]
  | cons x t ih => simp [parseAll, parseDec_render, ih]

/-- The two steps that make up the notebooks' single piece of control flow:
the `os.path.exists` check and the conditional `os.makedirs`. -/
def isDirHandling : Step → Bool
  | Step.checkDataDir _ => true
  | Step.makeDataDir => true
  | _ => false

/-- `ordersRespected p q run` holds when no `p`-step occurs after a `q`-step:
every step satisfying `p` precedes every step satisfying `q`. -/
def ordersRespected (p q : Step → Bool) : List Step → Bool
  | [] => true
  | s :: rest => (if q s then rest.all fun t => !(p t) else true) &&
      ordersRespected p q rest

/-!
## The claims
-/

/-- C1: each complete run of either notebook performs the spec's pipeline in
order: load the Boston dataset, split it, write and upload CSV files,
launch the XGBoost training (in the tuning notebook the hyperparameter
search launches the training jobs), then deploy behind an endpoint and
predict (deploy notebook) or run the batch transform (tuning notebook), and
obtain the predictions for evaluation.  Stated as: the listed steps occur as
an ordered subsequence of the run's trace, for either value of the one
branch condition. -/
theorem claim1_pipeline_order : ∀ b : Bool,
    isSubseqOf
      [Step.loadDataset, Step.splitData,
       Step.writeCsv "train.csv" Payload.trainYX false false,
       Step.uploadToS3 "train.csv",
       Step.fitEstimator,
       Step.deployEndpoint,
       Step.predictCall "text/csv" Payload.testX,
       Step.parsePredictions]
      (deployRun b) = true ∧
    isSubseqOf
      [Step.loadDataset, Step.splitData,
       Step.writeCsv "train.csv" Payload.trainYX false false,
       Step.uploadToS3 "train.csv",
       Step.fitTuner,
       Step.transformCall "text/csv" "Line",
       Step.readOutputCsv "test.csv.out"]
      (tuningRun b) = true := by
  intro b
  cases b <;> exact ⟨by decide, by decide⟩

/-- C2: each of training, hyperparameter tuning, hosting and batch inference
is performed by exactly one call to the client library in the notebook that
performs it (`Estimator.fit`, `HyperparameterTuner.fit`, `Estimator.deploy`,
`Transformer.transform`), the other notebook never performs it, and every
step of both runs is either a delegation to the client library or local
glue (file handling, request construction, parsing, plotting) — no step
implements training, parameter search or serving locally. -/
theorem claim2_single_call_delegation : ∀ b : Bool,
    (deployRun b).count Step.fitEstimator = 1 ∧
    (deployRun b).count Step.deployEndpoint = 1 ∧
    (deployRun b).count Step.fitTuner = 0 ∧
    (deployRun b).countP (fun s => match s with
      | Step.transformCall _ _ => true | _ => false) = 0 ∧
    (tuningRun b).count Step.fitTuner = 1 ∧
    (tuningRun b).countP (fun s => match s with
      | Step.transformCall _ _ => true | _ => false) = 1 ∧
    (tuningRun b).count Step.fitEstimator = 0 ∧
    (tuningRun b).count Step.deployEndpoint = 0 ∧
    ((deployRun b ++ tuningRun b).all fun s =>
      isClientCall s || isLocalGlue s) = true := by
  intro b
  cases b <;> decide

/-- C3: the files either notebook persists as staging data are exactly
`validation.csv` and `train.csv` (deploy notebook) and `test.csv`,
`validation.csv`, `train.csv` and the downloaded batch output `test.csv.out`
(tuning notebook); everything uploaded to object storage is one of the
`to_csv` files; and every persisting step is either a `to_csv` call with
`header=False, index=False` (plain CSV) or the copy of the CSV
batch-transform output — no other persisted format exists. -/
theorem claim3_only_plain_csv : ∀ b : Bool,
    persistedFiles (deployRun b) = ["validation.csv", "train.csv"] ∧
    persistedFiles (tuningRun b) =
      ["test.csv", "validation.csv", "train.csv", "test.csv.out"] ∧
    uploadedFiles (deployRun b) = ["validation.csv", "train.csv"] ∧
    uploadedFiles (tuningRun b) = ["test.csv", "validation.csv", "train.csv"] ∧
    ((deployRun b ++ tuningRun b).all fun s =>
      (stepPersists s).isNone ||
        (match s with
         | Step.writeCsv _ _ h i => !h && !i
         | Step.copyTransformOutput => true
         | _ => false)) = true := by
  intro b
  cases b <;> decide

/-- C4: the notebooks install no failure handling of their own: a run of
either notebook fails with error `e` exactly when the first failing
client-library call, in program order, raised `e` — the error reaches the
caller unchanged (no handler, retry or fallback replaces or absorbs it),
and a failure at any call aborts the rest of the run. -/
theorem claim4_errors_propagate_unchanged :
    ∀ (api : SageMakerApi) (e : String),
      (runDeployJob api = Except.error e ↔ specFirstErrorDeploy api = some e) ∧
      (runTuningJob api = Except.error e ↔ specFirstErrorTuning api = some e) := by
  intro api e
  constructor
  · unfold runDeployJob specFirstErrorDeploy
    cases h1 : api.loadBoston with
    | error e1 => simp [h1, Except.instMonad, Except.bind, Except.map, Except.pure]
    | ok v1 =>
    cases h2 : api.uploadData "validation.csv" with
    | error e2 => simp [h1, h2, Except.instMonad, Except.bind, Except.map, Except.pure]
    | ok v2 =>
    cases h3 : api.uploadData "train.csv" with
    | error e3 => simp [h1, h2, h3, Except.instMonad, Except.bind, Except.map, Except.pure]
    | ok v3 =>
    cases h4 : api.fitCall with
    | error e4 => simp [h1, h2, h3, h4, Except.instMonad, Except.bind, Except.map, Except.pure]
    | ok v4 =>
    cases h5 : api.deployCall with
    | error e5 => simp [h1, h2, h3, h4, h5, Except.instMonad, Except.bind, Except.map, Except.pure]
    | ok endpointName =>
    cases h6 : api.predictOn endpointName with
    | error e6 =>
      simp [h1, h2, h3, h4, h5, h6, Except.instMonad, Except.bind, Except.map, Except.pure]
    | ok rawPreds =>
    cases h7 : api.deleteEndpointOn endpointName with
    | error e7 =>
      simp [h1, h2, h3, h4, h5, h6, h7, Except.instMonad, Except.bind, Except.map, Except.pure]
    | ok v7 =>
      simp [h1, h2, h3, h4, h5, h6, h7, Except.instMonad, Except.bind, Except.map, Except.pure]
  · unfold runTuningJob specFirstErrorTuning
    cases h1 : api.loadBoston with
    | error e1 => simp [h1, Except.instMonad, Except.bind, Except.map, Except.pure]
    | ok v1 =>
    cases h2 : api.uploadData "test.csv" with
    | error e2 => simp [h1, h2, Except.instMonad, Except.bind, Except.map, Except.pure]
    | ok testLoc =>
    cases h3 : api.uploadData "validation.csv" with
    | error e3 => simp [h1, h2, h3, Except.instMonad, Except.bind, Except.map, Except.pure]
    | ok v3 =>
    cases h4 : api.uploadData "train.csv" with
    | error e4 => simp [h1, h2, h3, h4, Except.instMonad, Except.bind, Except.map, Except.pure]
    | ok v4 =>
    cases h5 : api.tunerFit with
    | error e5 => simp [h1, h2, h3, h4, h5, Except.instMonad, Except.bind, Except.map, Except.pure]
    | ok v5 =>
    cases h6 : api.tunerWait with
    | error e6 =>
      simp [h1, h2, h3, h4, h5, h6, Except.instMonad, Except.bind, Except.map, Except.pure]
    | ok v6 =>
    cases h7 : api.bestTrainingJob with
    | error e7 =>
      simp [h1, h2, h3, h4, h5, h6, h7, Except.instMonad, Except.bind, Except.map, Except.pure]
    | ok best =>
    cases h8 : api.attachJob best with
    | error e8 =>
      simp [h1, h2, h3, h4, h5, h6, h7, h8, Except.instMonad, Except.bind, Except.map,
        Except.pure]
    | ok v8 =>
    cases h9 : api.transformOn testLoc with
    | error e9 =>
      simp [h1, h2, h3, h4, h5, h6, h7, h8, h9, Except.instMonad, Except.bind, Except.map,
        Except.pure]
    | ok v9 =>
    cases h10 : api.transformWait with
    | error e10 =>
      simp [h1, h2, h3, h4, h5, h6, h7, h8, h9, h10, Except.instMonad, Except.bind,
        Except.map, Except.pure]
    | ok v10 =>
    cases h11 : api.copyOutput with
    | error e11 =>
      simp [h1, h2, h3, h4, h5, h6, h7, h8, h9, h10, h11, Except.instMonad, Except.bind,
        Except.map, Except.pure]
    | ok v11 =>
      simp [h1, h2, h3, h4, h5, h6, h7, h8, h9, h10, h11, Except.instMonad, Except.bind,
        Except.map, Except.pure]

/-- C5 counterexample: the claim's strict ordering — read data, write CSV,
call an API, poll, parse, plot, delete, with no step before its predecessor
— fails on the tuning notebook: after the tuner poll (`wait()`), the run
makes further API calls (`best_training_job`, `Estimator.attach`,
`transform`), so an API-phase step occurs after a poll-phase step and the
phase sequence is not monotone. -/
theorem claim5_counterexample : phasesMonotone (tuningRun true) = false := by
  decide

/-- C5 amended: the glue code is sequential and linear with the single
directory-existence branch (the branch only adds or removes the `makedirs`
step).  The deploy notebook performs the spec's phases in exactly the listed
order.  The tuning notebook violates the single strict order only in that
the batch-transform chain starts after the tuning poll; what holds is:
reads precede CSV writes, CSV writes precede every API call, each poll
follows the API call that launched it, the response is parsed only after the
last poll, the scatter chart follows parsing, and resources are deleted only
after the chart. -/
theorem claim5_amended_phase_order : ∀ b : Bool,
    phasesMonotone (deployRun b) = true ∧
    ((deployRun false).filter fun s => !(isDirHandling s)) =
      ((deployRun true).filter fun s => !(isDirHandling s)) ∧
    ((tuningRun false).filter fun s => !(isDirHandling s)) =
      ((tuningRun true).filter fun s => !(isDirHandling s)) ∧
    ordersRespected (fun s => stepPhase s == Phase.readData)
      (fun s => stepPhase s == Phase.writeCsvFile) (tuningRun b) = true ∧
    ordersRespected (fun s => stepPhase s == Phase.writeCsvFile)
      (fun s => stepPhase s == Phase.apiCall) (tuningRun b) = true ∧
    ordersRespected (fun s => s == Step.fitTuner)
      (fun s => s == Step.waitTuner) (tuningRun b) = true ∧
    ordersRespected (fun s => s == Step.transformCall "text/csv" "Line")
      (fun s => s == Step.waitTransformer) (tuningRun b) = true ∧
    ordersRespected (fun s => stepPhase s == Phase.poll)
      (fun s => stepPhase s == Phase.parseResponse) (tuningRun b) = true ∧
    ordersRespected (fun s => stepPhase s == Phase.parseResponse)
      (fun s => stepPhase s == Phase.plotChart) (tuningRun b) = true ∧
    ordersRespected (fun s => stepPhase s == Phase.plotChart)
      (fun s => stepPhase s == Phase.deleteResources) (tuningRun b) = true := by
  intro b
  cases b <;> decide

/-- C6: test inputs reach the model by exactly one of the two allowed
routes.  In the deploy notebook the test features are never written to a CSV
file nor uploaded, and they are sent as `text/csv` in a single `predict`
call; in the tuning notebook `test.csv` is written from the test features,
uploaded, and evaluated by a batch transform with `content_type='text/csv'`
and `split_type='Line'`, and no endpoint is deployed or queried. -/
theorem claim6_test_input_routes : ∀ b : Bool,
    ((deployRun b).all fun s =>
      match s with
      | Step.writeCsv _ src _ _ => !(src == Payload.testX)
      | Step.uploadToS3 name => !(name == "test.csv")
      | _ => true) = true ∧
    (deployRun b).countP (fun s => match s with
      | Step.predictCall _ _ => true | _ => false) = 1 ∧
    Step.predictCall "text/csv" Payload.testX ∈ deployRun b ∧
    Step.writeCsv "test.csv" Payload.testX false false ∈ tuningRun b ∧
    Step.uploadToS3 "test.csv" ∈ tuningRun b ∧
    Step.transformCall "text/csv" "Line" ∈ tuningRun b ∧
    ((tuningRun b).all fun s =>
      match s with
      | Step.predictCall _ _ => false
      | Step.deployEndpoint => false
      | _ => true) = true := by
  intro b
  cases b <;> decide

/-- C7: the two successive `train_test_split(..., test_size=0.33)` calls
partition the `N` paired rows: the test split has `ceil(0.33 * N)` rows, the
validation split `ceil(0.33 * (N - ceil(0.33 * N)))` rows, the train split
the remainder, and test, validation and train together are a permutation of
the original rows (so every row lands in exactly one split, still paired
with its target, since rows are `(features, target)` pairs).  `s1` and `s2`
are the shuffles the two calls draw. -/
theorem claim7_split_partition {α β : Type} (rows s1 s2 : List (α × β))
    (h1 : s1.Perm rows) (h2 : s2.Perm (trainTestSplit s1).1) :
    (trainTestSplit s1).2.length = testSplitSize rows.length ∧
    (trainTestSplit s2).2.length =
      testSplitSize (rows.length - testSplitSize rows.length) ∧
    (trainTestSplit s2).1.length =
      rows.length - testSplitSize rows.length -
        testSplitSize (rows.length - testSplitSize rows.length) ∧
    ((trainTestSplit s1).2 ++
      ((trainTestSplit s2).2 ++ (trainTestSplit s2).1)).Perm rows := by
  have hl1 : s1.length = rows.length := h1.length_eq
  have hle1 := testSplitSize_le rows.length
  have hl2 : s2.length = rows.length - testSplitSize rows.length := by
    have hlen := h2.length_eq
    simp only [trainTestSplit, List.length_drop] at hlen
    rw [hlen, hl1]
  have hle2 := testSplitSize_le (rows.length - testSplitSize rows.length)
  refine ⟨?_, ?_, ?_, ?_⟩
  · simp only [trainTestSplit, List.length_take]
    rw [hl1]
    omega
  · simp only [trainTestSplit, List.length_take]
    rw [hl2]
    omega
  · simp only [trainTestSplit, List.length_drop]
    rw [hl2]
  · simp only [trainTestSplit]
    rw [List.take_append_drop]
    refine (h2.append_left _).trans ?_
    simp only [trainTestSplit]
    rw [List.take_append_drop]
    exact h1

/-- Witness for C7 at a concrete six-row dataset with identity shuffles. -/
theorem claim7_split_partition_witness :
    (trainTestSplit [((1, 10) : Nat × Nat), (2, 20), (3, 30), (4, 40), (5, 50),
        (6, 60)]).2.length = testSplitSize 6 ∧
    (trainTestSplit (trainTestSplit [((1, 10) : Nat × Nat), (2, 20), (3, 30),
        (4, 40), (5, 50), (6, 60)]).1).2.length =
      testSplitSize (6 - testSplitSize 6) ∧
    (trainTestSplit (trainTestSplit [((1, 10) : Nat × Nat), (2, 20), (3, 30),
        (4, 40), (5, 50), (6, 60)]).1).1.length =
      6 - testSplitSize 6 - testSplitSize (6 - testSplitSize 6) ∧
    ((trainTestSplit [((1, 10) : Nat × Nat), (2, 20), (3, 30), (4, 40), (5, 50),
        (6, 60)]).2 ++
      ((trainTestSplit (trainTestSplit [((1, 10) : Nat × Nat), (2, 20), (3, 30),
          (4, 40), (5, 50), (6, 60)]).1).2 ++
        (trainTestSplit (trainTestSplit [((1, 10) : Nat × Nat), (2, 20), (3, 30),
          (4, 40), (5, 50), (6, 60)]).1).1)).Perm
      [((1, 10) : Nat × Nat), (2, 20), (3, 30), (4, 40), (5, 50), (6, 60)] :=
  claim7_split_partition
    [((1, 10) : Nat × Nat), (2, 20), (3, 30), (4, 40), (5, 50), (6, 60)]
    [((1, 10) : Nat × Nat), (2, 20), (3, 30), (4, 40), (5, 50), (6, 60)]
    (trainTestSplit [((1, 10) : Nat × Nat), (2, 20), (3, 30), (4, 40), (5, 50),
      (6, 60)]).1
    (List.Perm.refl _) (List.Perm.refl _)

theorem csvBody_plain {α : Type} (i : Nat) (rows : List (List α)) :
    csvBody false i rows = rows.map fun r => r.map Cell.value := by
  induction rows generalizing i with
  | nil => rfl
  | cons r rest ih => simp [csvBody, ih]

theorem toCsvLines_plain {α : Type} (rows : List (List α)) :
    toCsvLines none false rows = rows.map fun r => r.map Cell.value := by
  unfold toCsvLines
  exact csvBody_plain 0 rows

/-- C8: the staging CSV files have a fixed row layout.  `train.csv` and
`validation.csv` are written with no header line and no index column and
each of their lines is the row's target value followed by its 13 feature
values; the tuning notebook's `test.csv` is written with no header and no
index and each line is exactly the row's 13 feature values. -/
theorem claim8_csv_row_layout {α : Type} (trainRows valRows : List (α × List α))
    (testRows : List (List α))
    (htrain : ∀ r ∈ trainRows, r.2.length = 13)
    (hval : ∀ r ∈ valRows, r.2.length = 13)
    (htest : ∀ r ∈ testRows, r.length = 13) :
    writeLabeledCsv trainRows =
      trainRows.map (fun r => Cell.value r.1 :: r.2.map Cell.value) ∧
    writeLabeledCsv valRows =
      valRows.map (fun r => Cell.value r.1 :: r.2.map Cell.value) ∧
    writeTestCsv testRows = testRows.map (fun r => r.map Cell.value) ∧
    (writeLabeledCsv trainRows).length = trainRows.length ∧
    (writeLabeledCsv valRows).length = valRows.length ∧
    (writeTestCsv testRows).length = testRows.length ∧
    (∀ line ∈ writeLabeledCsv trainRows, line.length = 14) ∧
    (∀ line ∈ writeLabeledCsv valRows, line.length = 14) ∧
    (∀ line ∈ writeTestCsv testRows, line.length = 13) := by
  have hlab : ∀ rows : List (α × List α), writeLabeledCsv rows =
      rows.map fun r => Cell.value r.1 :: r.2.map Cell.value := by
    intro rows
    unfold writeLabeledCsv concatYX
    rw [toCsvLines_plain, List.map_map]
    rfl
  have htst : writeTestCsv testRows = testRows.map fun r => r.map Cell.value := by
    unfold writeTestCsv
    exact toCsvLines_plain testRows
  refine ⟨hlab trainRows, hlab valRows, htst, ?_, ?_, ?_, ?_, ?_, ?_⟩
  · rw [hlab trainRows, List.length_map]
  · rw [hlab valRows, List.length_map]
  · rw [htst, List.length_map]
  · intro line hline
    rw [hlab trainRows] at hline
    rcases List.mem_map.mp hline with ⟨r, hr, rfl⟩
    simp [htrain r hr]
  · intro line hline
    rw [hlab valRows] at hline
    rcases List.mem_map.mp hline with ⟨r, hr, rfl⟩
    simp [hval r hr]
  · intro line hline
    rw [htst] at hline
    rcases List.mem_map.mp hline with ⟨r, hr, rfl⟩
    simp [htest r hr]

/-- Witness for C8 at one-row concrete frames with 13 features. -/
theorem claim8_csv_row_layout_witness :
    writeLabeledCsv [((99 : Nat), List.range 13)] =
      [((99 : Nat), List.range 13)].map
        (fun r => Cell.value r.1 :: r.2.map Cell.value) ∧
    writeLabeledCsv [((98 : Nat), List.range 13)] =
      [((98 : Nat), List.range 13)].map
        (fun r => Cell.value r.1 :: r.2.map Cell.value) ∧
    writeTestCsv [List.range 13] = [List.range 13].map (fun r => r.map Cell.value) ∧
    (writeLabeledCsv [((99 : Nat), List.range 13)]).length =
      ([((99 : Nat), List.range 13)] : List (Nat × List Nat)).length ∧
    (writeLabeledCsv [((98 : Nat), List.range 13)]).length =
      ([((98 : Nat), List.range 13)] : List (Nat × List Nat)).length ∧
    (writeTestCsv [List.range 13]).length = ([List.range 13] : List (List Nat)).length ∧
    (∀ line ∈ writeLabeledCsv [((99 : Nat), List.range 13)], line.length = 14) ∧
    (∀ line ∈ writeLabeledCsv [((98 : Nat), List.range 13)], line.length = 14) ∧
    (∀ line ∈ writeTestCsv [List.range 13], line.length = 13) :=
  claim8_csv_row_layout [((99 : Nat), List.range 13)] [((98 : Nat), List.range 13)]
    [List.range 13] (by decide) (by decide) (by decide)

/-- C9: parsing is the inverse of serialization: for every nonempty finite
decimal prediction vector, rendering it as the comma-delimited decimal
string the endpoint returns and then applying the `np.fromstring(..., sep=',')`
model recovers exactly the original vector — in particular one parsed entry
per serialized prediction. -/
theorem claim9_parse_inverts_serialize (v : List DecNum) (hne : v ≠ []) :
    parsePreds (serializePreds v) = some v := by
  unfold parsePreds serializePreds
  rw [splitOnComma_joinComma (v.map renderDec)
    (fun h => hne (List.map_eq_nil_iff.mp h))
    (by
      intro p hp
      rcases List.mem_map.mp hp with ⟨x, _, rfl⟩
      exact renderDec_no_comma x)]
  exact parseAll_render v

/-- Witness for C9 at a concrete three-entry prediction vector. -/
theorem claim9_parse_inverts_serialize_witness :
    parsePreds (serializePreds [⟨2146, 2⟩, ⟨-30, 1⟩, ⟨5, 0⟩]) =
      some [⟨2146, 2⟩, ⟨-30, 1⟩, ⟨5, 0⟩] :=
  claim9_parse_inverts_serialize [⟨2146, 2⟩, ⟨-30, 1⟩, ⟨5, 0⟩] (by decide)
